import Mathlib

/-!
Verification of the NLU core of the AI-agents repository
(`ai_task_manager/enhanced_nlu.py`, with the shared collections of
`ai_task_manager/shared.py`).

The Python code is shallowly embedded: text is `List Char`, Python `float`
is modeled as `ℚ` (all amounts in scope are exact decimals), a Python
exception escaping a function is `Option.none`, and `datetime.now()` is an
external input, passed in as either a formatted-date supplier `fmt : Nat →
List Char` (`fmt n` is `(now + n days).strftime("%Y-%m-%d")`) or an
explicit wall-clock record.  The regular-expression routines `re.search`,
`re.findall` and `re.sub` are embedded by a small backtracking matcher with
Python semantics for the constructs the source patterns use: word
boundaries, character classes, greedy `* + ? {m,n}`, leftmost search,
non-overlapping scanning, and `findall`'s rule of returning group contents
(string for one group, tuple for several) instead of the whole match.
-/

namespace ATM

/-! ## Character predicates (Python ASCII semantics; all source text is ASCII) -/

/-- ASCII lower-casing, the effect of Python `str.lower()` on the ASCII
texts in scope. -/
def lowerChar (c : Char) : Char :=
  if 65 ≤ c.toNat && c.toNat ≤ 90 then Char.ofNat (c.toNat + 32) else c

/-- Python `str.lower()` on a character list. -/
def lowerStr (s : List Char) : List Char := s.map lowerChar

/-- Python regex `\w` (ASCII): letters, digits, underscore. -/
def isWordChar (c : Char) : Bool :=
  (97 ≤ c.toNat && c.toNat ≤ 122) || (65 ≤ c.toNat && c.toNat ≤ 90) ||
  (48 ≤ c.toNat && c.toNat ≤ 57) || c == '_'

/-- Python regex `\d` (ASCII digits). -/
def isDigitChar (c : Char) : Bool := 48 ≤ c.toNat && c.toNat ≤ 57

/-- Python regex `\s` / `str.strip()` whitespace (ASCII part). -/
def isSpaceChar (c : Char) : Bool :=
  c == ' ' || c == '\t' || c == '\n' || c == '\r' ||
  c == Char.ofNat 12 || c == Char.ofNat 11

/-- Does `hay` begin with `needle`?  (Used for Python substring tests.) -/
def hasPre (needle hay : List Char) : Bool :=
  match needle, hay with
  | [], _ => true
  | _ :: _, [] => false
  | c :: cs, d :: ds => c == d && hasPre cs ds

/-- Python `needle in hay` substring containment. -/
def subStr (needle : List Char) : List Char → Bool
  | [] => hasPre needle []
  | c :: t => hasPre needle (c :: t) || subStr needle t

/-- Python `str.strip()`: drop leading and trailing whitespace. -/
def pyStrip (s : List Char) : List Char :=
  ((s.dropWhile isSpaceChar).reverse.dropWhile isSpaceChar).reverse

/-- Python string `<` (code-point lexicographic), as non-strict `≤`. -/
def lexLe : List Char → List Char → Bool
  | [], _ => true
  | _ :: _, [] => false
  | a :: as2, b :: bs => if a == b then lexLe as2 bs else a.toNat.blt b.toNat

/-! ## Regular expressions

An AST covering exactly the constructs used by the source patterns. -/

inductive Regex : Type where
  | eps : Regex
  | char : Char → Regex
  | digit : Regex                         -- `\d`
  | space : Regex                         -- `\s`
  | wordc : Regex                         -- `\w`
  | wordB : Regex                         -- `\b`
  | cset : List Char → Bool → Regex       -- `[...]` / `[^...]` (true = negated)
  | seq : Regex → Regex → Regex
  | alt : Regex → Regex → Regex           -- left-preferring alternation
  | star : Regex → Regex                  -- greedy `*`
  | opt : Regex → Regex                   -- greedy `?`
  | rep : Regex → Nat → Nat → Regex       -- greedy `{lo,hi}`
  | group : Nat → Regex → Regex           -- capturing group
deriving DecidableEq

/-- Structural size, used only to compute a generous fuel bound. -/
def regexSize : Regex → Nat
  | .eps => 1
  | .char _ => 1
  | .digit => 1
  | .space => 1
  | .wordc => 1
  | .wordB => 1
  | .cset _ _ => 1
  | .seq a b => regexSize a + regexSize b + 1
  | .alt a b => regexSize a + regexSize b + 1
  | .star a => regexSize a + 1
  | .opt a => regexSize a + 1
  | .rep a _ hi => (regexSize a + 1) * (hi + 1) + 1
  | .group _ a => regexSize a + 1

/-- Capture environment: (group index, start, end), most recent first. -/
def Caps : Type := List (Nat × Nat × Nat)

/-- Is the character at position `i` (if any) a word character? -/
def wordAt (s : List Char) (i : Nat) : Bool :=
  match s.get? i with
  | some c => isWordChar c
  | none => false

/-- Backtracking matcher in continuation-passing style, implementing
Python `re` semantics: alternation prefers its left branch, `* ? {m,n}`
are greedy, `\b` tests word/non-word transitions, and the first success in
preference order wins.  `fuel` only forces termination; it is always
supplied large enough (every loop consumes input, every call descends). -/
def matchAt : Nat → Regex → List Char → Nat → Caps →
    (Nat → Caps → Option (Nat × Caps)) → Option (Nat × Caps)
  | 0, _, _, _, _, _ => none
  | fuel + 1, r, s, i, caps, k =>
    match r with
    | .eps => k i caps
    | .char c =>
      match s.get? i with
      | some c2 => if c2 == c then k (i + 1) caps else none
      | none => none
    | .digit =>
      match s.get? i with
      | some c2 => if isDigitChar c2 then k (i + 1) caps else none
      | none => none
    | .space =>
      match s.get? i with
      | some c2 => if isSpaceChar c2 then k (i + 1) caps else none
      | none => none
    | .wordc =>
      match s.get? i with
      | some c2 => if isWordChar c2 then k (i + 1) caps else none
      | none => none
    | .wordB =>
      let before := match i with
        | 0 => false
        | j + 1 => wordAt s j
      if before != wordAt s i then k i caps else none
    | .cset cs neg =>
      match s.get? i with
      | some c2 => if cs.contains c2 != neg then k (i + 1) caps else none
      | none => none
    | .seq a b =>
      matchAt fuel a s i caps fun j caps2 => matchAt fuel b s j caps2 k
    | .alt a b =>
      match matchAt fuel a s i caps k with
      | some res => some res
      | none => matchAt fuel b s i caps k
    | .star a =>
      match matchAt fuel a s i caps
          (fun j caps2 =>
            if j == i then none else matchAt fuel (.star a) s j caps2 k) with
      | some res => some res
      | none => k i caps
    | .opt a =>
      match matchAt fuel a s i caps k with
      | some res => some res
      | none => k i caps
    | .rep a lo hi =>
      match lo with
      | l + 1 =>
        matchAt fuel a s i caps fun j caps2 =>
          matchAt fuel (.rep a l (hi - 1)) s j caps2 k
      | 0 =>
        match hi with
        | 0 => k i caps
        | h + 1 =>
          match matchAt fuel a s i caps
              (fun j caps2 =>
                if j == i then none
                else matchAt fuel (.rep a 0 h) s j caps2 k) with
          | some res => some res
          | none => k i caps
    | .group n a =>
      matchAt fuel a s i caps fun j caps2 => k j ((n, i, j) :: caps2)

/-- Fuel amply covering the matcher's recursion depth. -/
def regexFuel (r : Regex) (s : List Char) : Nat :=
  (regexSize r + 2) * (s.length + 2) * 2

/-- Try to match `r` at position `i` of `s`; on success return the end
position and captures of the preferred match. -/
def matchKernel (r : Regex) (s : List Char) (i : Nat) : Option (Nat × Caps) :=
  matchAt (regexFuel r s) r s i [] fun j caps => some (j, caps)

/-- Try start positions `i, i+1, ...` (at most `t` of them); Python's
leftmost-match rule.  Returns (start, end, captures). -/
def searchAux (r : Regex) (s : List Char) : Nat → Nat → Option (Nat × Nat × Caps)
  | _, 0 => none
  | i, t + 1 =>
    match matchKernel r s i with
    | some (j, caps) => some (i, j, caps)
    | none => searchAux r s (i + 1) t

/-- Python `re.search(r, s)` as a leftmost match, with captures. -/
def reSearchM (r : Regex) (s : List Char) : Option (Nat × Nat × Caps) :=
  searchAux r s 0 (s.length + 1)

/-- Python `bool(re.search(r, s))`. -/
def reSearch (r : Regex) (s : List Char) : Bool :=
  (reSearchM r s).isSome

/-- Number of capturing groups of a pattern (largest group index). -/
def numGroups : Regex → Nat
  | .eps => 0
  | .char _ => 0
  | .digit => 0
  | .space => 0
  | .wordc => 0
  | .wordB => 0
  | .cset _ _ => 0
  | .seq a b => max (numGroups a) (numGroups b)
  | .alt a b => max (numGroups a) (numGroups b)
  | .star a => numGroups a
  | .opt a => numGroups a
  | .rep a _ _ => numGroups a
  | .group n a => max n (numGroups a)

/-- Content of group `n` from the capture environment; `""` when the group
did not participate (exactly `re.findall`'s empty-string default). -/
def capStr (s : List Char) (caps : Caps) (n : Nat) : List Char :=
  match caps.find? (fun t => t.1 == n) with
  | some (_, st, en) => (s.drop st).take (en - st)
  | none => []

/-- A Python value returned by `re.findall`: a string, or a tuple of
strings when the pattern has two or more groups. -/
inductive PyVal : Type where
  | str : List Char → PyVal
  | tup : List (List Char) → PyVal
deriving DecidableEq

/-- `re.findall` scan: non-overlapping leftmost matches, left to right;
each match contributes the whole match (no groups), the single group's
content (one group), or the tuple of all groups' contents (else). -/
def findallAux (r : Regex) (ng : Nat) (s : List Char) : Nat → Nat → List PyVal
  | _, 0 => []
  | i, t + 1 =>
    match searchAux r s i (s.length + 1 - i) with
    | none => []
    | some (st, en, caps) =>
      let v : PyVal :=
        if ng == 0 then .str ((s.drop st).take (en - st))
        else if ng == 1 then .str (capStr s caps 1)
        else .tup ((List.range ng).map fun g => capStr s caps (g + 1))
      v :: findallAux r ng s (if st < en then en else en + 1) t

/-- Python `re.findall(r, s)`. -/
def reFindall (r : Regex) (s : List Char) : List PyVal :=
  findallAux r (numGroups r) s 0 (s.length + 1)

/-- Spans of the non-overlapping leftmost matches (as used by `re.sub`). -/
def findSpansAux (r : Regex) (s : List Char) : Nat → Nat → List (Nat × Nat)
  | _, 0 => []
  | i, t + 1 =>
    match searchAux r s i (s.length + 1 - i) with
    | none => []
    | some (st, en, _) =>
      (st, en) :: findSpansAux r s (if st < en then en else en + 1) t

/-- Delete the characters of `s` whose index lies in one of the spans. -/
def deleteSpans (s : List Char) (spans : List (Nat × Nat)) : List Char :=
  (s.zip (List.range s.length)).filterMap fun ci =>
    if spans.any (fun sp => sp.1 ≤ ci.2 && ci.2 < sp.2) then none else some ci.1

/-- Python `re.sub(r, "", s, flags=re.IGNORECASE)`: matching is performed
on a lower-cased copy (the source's patterns are lower-case), and the
matched spans are removed from the original string.  Patterns without
letters are unaffected by the flag, so this also covers the source's one
flag-less `re.sub` call. -/
def reSubEmptyCI (r : Regex) (s : List Char) : List Char :=
  deleteSpans s (findSpansAux r (lowerStr s) 0 (s.length + 1))

/-! ## Pattern construction helpers -/

/-- Concatenation of a pattern list. -/
def rcat : List Regex → Regex
  | [] => .eps
  | [r] => r
  | r :: rs => .seq r (rcat rs)

/-- Literal string pattern. -/
def rstr (s : String) : Regex := rcat (s.data.map .char)

/-- `a|b|c...` (left-preferring, Python order). -/
def ralts : List Regex → Regex
  | [] => .eps
  | [r] => r
  | r :: rs => .alt r (ralts rs)

/-- A capturing group of word alternatives, `(w1|w2|...)`. -/
def rwords (n : Nat) (ws : List String) : Regex :=
  .group n (ralts (ws.map rstr))

/-- `\s+` -/
def sp1 : Regex := .seq .space (.star .space)

/-- `\s*` -/
def sp0 : Regex := .star .space

/-- `\d+` -/
def dig1 : Regex := .seq .digit (.star .digit)

/-- ASCII apostrophe (39). -/
def apos : Char := Char.ofNat 39

/-! ## Intent classification (`enhanced_nlu.py` lines 12-72) -/

/-- The five intent tags, in the declaration order of `INTENT_PATTERNS`. -/
inductive Intent : Type where
  | task_management
  | budget_management
  | schedule_management
  | information_query
  | conversation
deriving DecidableEq

/-- `INTENT_PATTERNS['task_management']` (lines 16-25). -/
def taskPatterns : List Regex := [
  rcat [.wordB, rwords 1 ["add", "create", "new", "make"], sp1,
        rwords 2 ["task", "todo", "reminder"]],
  rcat [.wordB, rwords 1 ["complete", "finish", "done", "mark"], sp1,
        rwords 2 ["task", "todo"]],
  rcat [.wordB, rwords 1 ["delete", "remove", "cancel"], sp1,
        rwords 2 ["task", "todo"]],
  rcat [.wordB, rwords 1 ["show", "list", "view"], sp1,
        rwords 2 ["tasks", "todos"]],
  rcat [.wordB, rwords 1 ["update", "edit", "change"], sp1,
        rwords 2 ["task", "todo"]],
  rcat [.wordB, rstr "deadline", .wordB],
  rcat [.wordB, rstr "priority", .wordB],
  rcat [.wordB, rstr "due", sp1, rwords 1 ["by", "on", "before"]]]

/-- `INTENT_PATTERNS['budget_management']` (lines 26-33). -/
def budgetPatterns : List Regex := [
  rcat [.wordB, rwords 1 ["spent", "spend", "cost", "paid", "pay"], sp0,
        .opt (.char '$'), dig1],
  rcat [.wordB, rwords 1 ["earned", "income", "salary", "received"], sp0,
        .opt (.char '$'), dig1],
  rcat [.wordB, rwords 1 ["budget", "expense", "expenses", "spending"]],
  rcat [.wordB, rwords 1 ["track", "record", "log"], sp1,
        rwords 2 ["expense", "spending", "income"]],
  rcat [.wordB, rwords 1 ["show", "view", "check"], sp1,
        rwords 2 ["budget", "expenses", "spending"]],
  rcat [.char '$', dig1]]

/-- `INTENT_PATTERNS['schedule_management']` (lines 34-41). -/
def schedulePatterns : List Regex := [
  rcat [.wordB, rwords 1 ["schedule", "appointment", "meeting", "event"]],
  rcat [.wordB, rwords 1 ["calendar", "agenda"]],
  rcat [.wordB, rwords 1 ["remind", "reminder"], sp1, rstr "me"],
  rcat [.wordB, rwords 1 ["at", "on", "from", "until"], sp1, .rep .digit 1 2,
        .opt (.group 2 (rcat [.char ':', .rep .digit 2 2])), sp0,
        rwords 3 ["am", "pm"]],
  rcat [.wordB, .group 1 (ralts [rstr "today", rstr "tomorrow",
        rcat [rstr "next", sp1, rstr "week"], rstr "monday", rstr "tuesday",
        rstr "wednesday", rstr "thursday", rstr "friday", rstr "saturday",
        rstr "sunday"])],
  rcat [.wordB, rwords 1 ["book", "reserve", "plan"]]]

/-- `INTENT_PATTERNS['information_query']` (lines 42-47). -/
def queryPatterns : List Regex := [
  rcat [.wordB, rwords 1 ["what", "when", "where", "how", "why", "who"]],
  rcat [.wordB, rwords 1 ["show", "tell", "explain", "describe"]],
  rcat [.wordB, rwords 1 ["status", "summary", "overview", "report"]],
  rcat [.wordB, rwords 1 ["help", "assist", "support"]]]

/-- `INTENT_PATTERNS['conversation']` (lines 48-53). -/
def conversationPatterns : List Regex := [
  rcat [.wordB, .group 1 (ralts [rstr "hello", rstr "hi", rstr "hey",
        rcat [rstr "good", sp1,
              rwords 2 ["morning", "afternoon", "evening"]]])],
  rcat [.wordB, rwords 1 ["thank", "thanks", "appreciate"]],
  rcat [.wordB, .group 1 (ralts [
        rcat [rstr "how", sp1, rstr "are", sp1, rstr "you"],
        rcat [rstr "what", .char apos, rstr "s", sp1, rstr "up"]])],
  rcat [.wordB, .group 1 (ralts [rstr "bye", rstr "goodbye",
        rcat [rstr "see", sp1, rstr "you"]])]]

/-- The intent declaration order of the `INTENT_PATTERNS` dict. -/
def intentOrder : List Intent :=
  [.task_management, .budget_management, .schedule_management,
   .information_query, .conversation]

/-- The pattern list of each intent tag. -/
def patsOf : Intent → List Regex
  | .task_management => taskPatterns
  | .budget_management => budgetPatterns
  | .schedule_management => schedulePatterns
  | .information_query => queryPatterns
  | .conversation => conversationPatterns

/-- `IntentClassifier.INTENT_PATTERNS`: the ordered dict, as an ordered
association list (lines 15-54). -/
def INTENT_PATTERNS : List (Intent × List Regex) :=
  intentOrder.map fun i => (i, patsOf i)

/-- The classifier loop of `classify_intent` (lines 61-66): for each
category in declaration order, if some pattern matches the (already
lower-cased) text, record the category once.  The inner `break` of the
source only stops testing further patterns of the same category, which is
exactly `List.any`. -/
def detect (tl : List Char) : List (Intent × List Regex) → List Intent → List Intent
  | [], acc => acc
  | (i, ps) :: rest, acc =>
    detect tl rest
      (if ps.any (fun r => reSearch r tl) then
        (if i ∈ acc then acc else acc ++ [i])
      else acc)

/-- `IntentClassifier.classify_intent` (lines 56-72): lower-case the text,
collect matching categories in declaration order, and fall back to
`['conversation']` when none matched. -/
def classifyIntent (text : List Char) : List Intent :=
  let detected := detect (lowerStr text) INTENT_PATTERNS []
  if detected.isEmpty then [.conversation] else detected

/-! ## Entity extraction (`enhanced_nlu.py` lines 74-170) -/

/-- `AdvancedEntityExtractor.date_patterns` (lines 78-84). -/
def datePatterns : List Regex := [
  rcat [.wordB, rwords 1 ["today", "tomorrow"], .wordB],
  rcat [.wordB, rwords 1 ["next", "this"], sp1,
        rwords 2 ["week", "month", "monday", "tuesday", "wednesday",
                  "thursday", "friday", "saturday", "sunday"], .wordB],
  rcat [.wordB, .rep .digit 1 2, .cset ['/', '-'] false, .rep .digit 1 2,
        .cset ['/', '-'] false, .rep .digit 2 4, .wordB],
  rcat [.wordB, rwords 1 ["january", "february", "march", "april", "may",
        "june", "july", "august", "september", "october", "november",
        "december"], sp1, .rep .digit 1 2, .wordB],
  rcat [.wordB, rstr "in", sp1, dig1, sp1,
        .group 1 (ralts [rcat [rstr "day", .opt (.char 's')],
                         rcat [rstr "week", .opt (.char 's')],
                         rcat [rstr "month", .opt (.char 's')]]), .wordB]]

/-- `AdvancedEntityExtractor.time_patterns` (lines 86-90). -/
def timePatterns : List Regex := [
  rcat [.wordB, .rep .digit 1 2,
        .opt (.group 1 (rcat [.char ':', .rep .digit 2 2])), sp0,
        rwords 2 ["am", "pm"], .wordB],
  rcat [.wordB, rwords 1 ["morning", "afternoon", "evening", "night"], .wordB],
  rcat [.wordB, rstr "at", sp1, .rep .digit 1 2,
        .opt (.group 1 (rcat [.char ':', .rep .digit 2 2])), .wordB]]

/-- `AdvancedEntityExtractor.amount_patterns` (lines 92-96). -/
def amountPatterns : List Regex := [
  rcat [.char '$', dig1, .opt (.group 1 (rcat [.char '.', .rep .digit 2 2]))],
  rcat [.wordB, dig1, sp0, rstr "dollar", .opt (.char 's'), .wordB],
  rcat [.wordB, dig1, .opt (.group 1 (rcat [.char '.', .rep .digit 2 2])),
        sp0, rstr "buck", .opt (.char 's'), .wordB]]

/-- `priority_patterns[0]`: `\b(urgent|asap|immediately|critical|high\s+priority)\b`. -/
def urgentPat : Regex :=
  rcat [.wordB, .group 1 (ralts [rstr "urgent", rstr "asap",
        rstr "immediately", rstr "critical",
        rcat [rstr "high", sp1, rstr "priority"]]), .wordB]

/-- `priority_patterns[1]`: `\b(important|medium\s+priority)\b`. -/
def importantPat : Regex :=
  rcat [.wordB, .group 1 (ralts [rstr "important",
        rcat [rstr "medium", sp1, rstr "priority"]]), .wordB]

/-- `priority_patterns[2]`: `\b(low\s+priority|when\s+possible|eventually)\b`. -/
def lowPat : Regex :=
  rcat [.wordB, .group 1 (ralts [rcat [rstr "low", sp1, rstr "priority"],
        rcat [rstr "when", sp1, rstr "possible"], rstr "eventually"]),
        .wordB]

/-- `AdvancedEntityExtractor.priority_patterns` (lines 98-102). -/
def priorityPatterns : List Regex := [urgentPat, importantPat, lowPat]

/-- Python `sub in v` where `v` is a `findall` result: substring test on a
string, element membership on a tuple. -/
def pyIn (sub : List Char) : PyVal → Bool
  | .str s => subStr sub s
  | .tup ss => ss.any fun e => e == sub

/-- `AdvancedEntityExtractor._normalize_dates` (lines 153-170).
`fmt n` stands for `(datetime.now() + timedelta(days=n)).strftime('%Y-%m-%d')`;
`timedelta(weeks=1)` is 7 days. -/
def normalizeDates (fmt : Nat → List Char) (dateStrings : List PyVal) : List PyVal :=
  dateStrings.map fun d =>
    if d == .str "today".data then .str (fmt 0)
    else if d == .str "tomorrow".data then .str (fmt 1)
    else if pyIn "next week".data d then .str (fmt 7)
    else if pyIn "next month".data d then .str (fmt 30)
    else d

/-- `AdvancedEntityExtractor.extract_dates` (lines 104-113): run every
date pattern's `findall` over the lower-cased text, concatenate, and
normalize.  Note that the `findall` results of a multi-group pattern are
tuples, not strings. -/
def extractDates (fmt : Nat → List Char) (text : List Char) : List PyVal :=
  let tl := lowerStr text
  normalizeDates fmt (datePatterns.foldl (fun acc p => acc ++ reFindall p tl) [])

/-- `AdvancedEntityExtractor.extract_times` (lines 115-124): concatenate
the `findall` results of the time patterns over the lower-cased text,
taking `match[0]` of each tuple result. -/
def extractTimes (text : List Char) : List (List Char) :=
  let tl := lowerStr text
  (timePatterns.foldl (fun acc p => acc ++ reFindall p tl) []).map fun m =>
    match m with
    | .tup ss => ss.headD []
    | .str s => s

/-- Python `float()` on the strings produced here: an optional digit run,
an optional point, a digit run — with at least one digit; `float('')`
raises `ValueError` (`none`). -/
def pyFloat (s : List Char) : Option ℚ :=
  let intPart := s.takeWhile isDigitChar
  let rest := s.dropWhile isDigitChar
  let q : Option ℚ := do
    let iv : ℚ := (intPart.foldl (fun a c => a * 10 + (c.toNat - 48)) 0 : ℕ)
    match rest with
    | [] => if intPart.isEmpty then none else some iv
    | '.' :: fr =>
      if fr.all isDigitChar && !(intPart.isEmpty && fr.isEmpty) then
        some (iv + ((fr.foldl (fun a c => a * 10 + (c.toNat - 48)) 0 : ℕ) : ℚ) /
          ((10 : ℚ) ^ fr.length))
      else none
    | _ => none
  q

/-- The numeric sub-pattern `\d+(\.\d{2})?` of `extract_amounts` (line 134). -/
def innerNumeric : Regex :=
  rcat [dig1, .opt (.group 1 (rcat [.char '.', .rep .digit 2 2]))]

/-- `AdvancedEntityExtractor.extract_amounts` (lines 126-138), on the
original (non-lowered) text.  A `ValueError` escaping the Python function
(from `float` on a malformed match) is `none`.  The inner `re.findall`
has one group, so `numeric[0]` is that group's content — the empty string
whenever the match has no decimal part, on which `float` raises. -/
def extractAmounts (text : List Char) : Option (List ℚ) :=
  amountPatterns.foldlM (fun acc p =>
    (reFindall p text).foldlM (fun acc2 m =>
      match m with
      | .tup _ => none
      | .str s =>
        match reFindall innerNumeric s with
        | [] => some acc2
        | n0 :: _ =>
          match n0 with
          | .tup ss => (pyFloat (ss.headD [])).map fun q => acc2 ++ [q]
          | .str s0 => (pyFloat s0).map fun q => acc2 ++ [q]) acc) []

/-- `AdvancedEntityExtractor.extract_priority` (lines 140-151): strict
precedence urgent → 4, important → 3, low → 1, default 2. -/
def extractPriority (text : List Char) : Nat :=
  let tl := lowerStr text
  if reSearch urgentPat tl then 4
  else if reSearch importantPat tl then 3
  else if reSearch lowPat tl then 1
  else 2

/-! ## Data model of the processor's result -/

/-- A value stored in an action's `data` dict: Python `None`, a string,
an int, a float (as `ℚ`), or a raw `findall` result. -/
inductive AVal : Type where
  | vNone : AVal
  | vStr : List Char → AVal
  | vInt : Nat → AVal
  | vRat : ℚ → AVal
  | vPy : PyVal → AVal
deriving DecidableEq

/-- A proposed action: `{'type': ..., 'data': {...}}`. -/
structure NAction : Type where
  typ : List Char
  data : List (List Char × AVal)
deriving DecidableEq

/-- The `entities` sub-dict of the processor's result (lines 196-201). -/
structure Entities : Type where
  dates : List PyVal
  times : List (List Char)
  amounts : List ℚ
  priority : Nat
deriving DecidableEq

/-- The result dict of `process_complex_input` (lines 194-204). -/
structure NLUResult : Type where
  intents : List Intent
  entities : Entities
  actions : List NAction
  confidence : ℚ
deriving DecidableEq

/-- The opaque `context` dict (never read by any rule of the source). -/
def Ctx : Type := List (List Char × List Char)

/-! ## Text-cleanup helpers (`enhanced_nlu.py` lines 348-429) -/

/-- `re.sub` pattern `\b(add|create|new|make|task|todo|reminder)\b` (line 352). -/
def subTaskWords : Regex :=
  rcat [.wordB, rwords 1 ["add", "create", "new", "make", "task", "todo",
        "reminder"], .wordB]

/-- `re.sub` pattern `\b(urgent|important|high|low|priority)\b` (line 353). -/
def subPriorityWords : Regex :=
  rcat [.wordB, rwords 1 ["urgent", "important", "high", "low", "priority"],
        .wordB]

/-- `re.sub` pattern `\b(today|tomorrow|next\s+week|by\s+\w+)\b` (line 354). -/
def subDateWords : Regex :=
  rcat [.wordB, .group 1 (ralts [rstr "today", rstr "tomorrow",
        rcat [rstr "next", sp1, rstr "week"],
        rcat [rstr "by", sp1, .seq .wordc (.star .wordc)]]), .wordB]

/-- `re.sub` pattern `\$\d+(\.\d{2})?` (lines 360 and 366). -/
def subDollar : Regex :=
  rcat [.char '$', dig1, .opt (.group 1 (rcat [.char '.', .rep .digit 2 2]))]

/-- `re.sub` pattern `\b(spent|spend|cost|paid|pay|for|on)\b` (line 361). -/
def subExpenseWords : Regex :=
  rcat [.wordB, rwords 1 ["spent", "spend", "cost", "paid", "pay", "for",
        "on"], .wordB]

/-- `re.sub` pattern `\b(earned|income|salary|received|from)\b` (line 367). -/
def subIncomeWords : Regex :=
  rcat [.wordB, rwords 1 ["earned", "income", "salary", "received", "from"],
        .wordB]

/-- `re.sub` pattern `\b(schedule|book|plan|appointment|meeting|event)\b`
(line 372). -/
def subEventWords : Regex :=
  rcat [.wordB, rwords 1 ["schedule", "book", "plan", "appointment",
        "meeting", "event"], .wordB]

/-- `re.sub` pattern `\b(at|on|from|until)\s+\d{1,2}(:\d{2})?\s*(am|pm)?\b`
(line 373). -/
def subTimePhrase : Regex :=
  rcat [.wordB, rwords 1 ["at", "on", "from", "until"], sp1, .rep .digit 1 2,
        .opt (.group 2 (rcat [.char ':', .rep .digit 2 2])), sp0,
        .opt (rwords 3 ["am", "pm"]), .wordB]

/-- `re.sub` pattern `\b(remind|reminder|me|to)\b` (line 378). -/
def subReminderWords : Regex :=
  rcat [.wordB, rwords 1 ["remind", "reminder", "me", "to"], .wordB]

/-- `re.search` pattern `\b(at|in|@)\s+([^,\n]+)` of `_extract_location`
(line 383). -/
def locPat : Regex :=
  rcat [.wordB, rwords 1 ["at", "in", "@"], sp1,
        .group 2 (.seq (.cset [',', '\n'] true) (.star (.cset [',', '\n'] true)))]

/-- `_extract_task_description` (lines 349-355). -/
def extractTaskDescription (text : List Char) : List Char :=
  pyStrip (reSubEmptyCI subDateWords
    (reSubEmptyCI subPriorityWords (reSubEmptyCI subTaskWords text)))

/-- `_extract_expense_description` (lines 357-362). -/
def extractExpenseDescription (text : List Char) : List Char :=
  pyStrip (reSubEmptyCI subExpenseWords (reSubEmptyCI subDollar text))

/-- `_extract_income_description` (lines 364-368). -/
def extractIncomeDescription (text : List Char) : List Char :=
  pyStrip (reSubEmptyCI subIncomeWords (reSubEmptyCI subDollar text))

/-- `_extract_event_title` (lines 370-374). -/
def extractEventTitle (text : List Char) : List Char :=
  pyStrip (reSubEmptyCI subTimePhrase (reSubEmptyCI subEventWords text))

/-- `_extract_reminder_title` (lines 376-379). -/
def extractReminderTitle (text : List Char) : List Char :=
  pyStrip (reSubEmptyCI subReminderWords text)

/-- `_extract_location` (lines 381-384): case-insensitive search; returns
the stripped second group, or `""`.  Matching is done on the lower-cased
copy, the group content is read off the original text (spans coincide). -/
def extractLocation (text : List Char) : List Char :=
  match searchAux locPat (lowerStr text) 0 (text.length + 1) with
  | some (_, _, caps) => pyStrip (capStr text caps 2)
  | none => []

/-- `_infer_category` (lines 386-399). -/
def inferCategory (text : List Char) : List Char :=
  let tl := lowerStr text
  let has := fun (ws : List String) => ws.any fun w => subStr w.data tl
  if has ["work", "office", "meeting", "project", "deadline"] then "Work".data
  else if has ["doctor", "gym", "exercise", "health", "medicine"] then "Health".data
  else if has ["learn", "study", "course", "book", "research"] then "Learning".data
  else if has ["bill", "payment", "bank", "money", "budget"] then "Finance".data
  else "Personal".data

/-- `_infer_expense_category` (lines 401-416). -/
def inferExpenseCategory (text : List Char) : List Char :=
  let tl := lowerStr text
  let has := fun (ws : List String) => ws.any fun w => subStr w.data tl
  if has ["food", "restaurant", "lunch", "dinner", "coffee", "grocery"] then "Food".data
  else if has ["gas", "uber", "taxi", "bus", "train", "transport"] then "Transport".data
  else if has ["movie", "game", "entertainment", "concert", "show"] then "Entertainment".data
  else if has ["electric", "water", "internet", "phone", "utility"] then "Utilities".data
  else if has ["doctor", "medicine", "pharmacy", "health"] then "Healthcare".data
  else "Other".data

/-- `_extract_task_filter` (lines 418-429). -/
def extractTaskFilter (text : List Char) : List Char :=
  let tl := lowerStr text
  if subStr "urgent".data tl || subStr "high priority".data tl then "high_priority".data
  else if subStr "today".data tl then "today".data
  else if subStr "overdue".data tl then "overdue".data
  else "all".data

/-! ## `_combine_date_time` (lines 431-453) -/

/-- Numeric value of an ASCII digit. -/
def digitVal (c : Char) : Nat := c.toNat - 48

/-- `strptime`'s `%I` field (CPython regex `1[0-2]|0[1-9]|[1-9]`). -/
def parseFieldI : List Char → Option (Nat × List Char)
  | [] => none
  | c :: rest =>
    if c == '1' then
      match rest with
      | d :: rest2 =>
        if d == '0' || d == '1' || d == '2' then some (10 + digitVal d, rest2)
        else some (1, rest)
      | [] => some (1, [])
    else if c == '0' then
      match rest with
      | d :: rest2 => if isDigitChar d && d != '0' then some (digitVal d, rest2) else none
      | [] => none
    else if isDigitChar c then some (digitVal c, rest)
    else none

/-- `strptime`'s `%M` field (CPython regex `[0-5]\d|\d`). -/
def parseFieldM : List Char → Option (Nat × List Char)
  | [] => none
  | c :: rest =>
    if isDigitChar c then
      if c.toNat ≤ 53 then
        match rest with
        | d :: rest2 =>
          if isDigitChar d then some (digitVal c * 10 + digitVal d, rest2)
          else some (digitVal c, rest)
        | [] => some (digitVal c, [])
      else some (digitVal c, rest)
    else none

/-- Whitespace in a `strptime` format string matches `\s+`. -/
def parseWs1 (s : List Char) : Option (List Char) :=
  match s with
  | c :: rest => if isSpaceChar c then some (rest.dropWhile isSpaceChar) else none
  | [] => none

/-- `strptime`'s `%p` field on the lower-cased data (`false` = am). -/
def parseFieldP : List Char → Option (Bool × List Char)
  | 'a' :: 'm' :: rest => some (false, rest)
  | 'p' :: 'm' :: rest => some (true, rest)
  | _ => none

/-- 12-hour to 24-hour conversion of `datetime.strptime`. -/
def hour24 (i : Nat) (pm : Bool) : Nat :=
  if i == 12 then (if pm then 12 else 0) else (if pm then i + 12 else i)

/-- `datetime.strptime(time_str, '%I:%M %p' if ':' in time_str else '%I %p')`
(line 448): `none` is a `ValueError`.  The whole string must be consumed. -/
def strptime12 (withColon : Bool) (s : List Char) : Option (Nat × Nat) := do
  let (i, r1) ← parseFieldI s
  if withColon then
    match r1 with
    | ':' :: r2 => do
      let (m, r3) ← parseFieldM r2
      let r4 ← parseWs1 r3
      let (pm, r5) ← parseFieldP r4
      if r5.isEmpty then some (hour24 i pm, m) else none
    | _ => none
  else do
    let r2 ← parseWs1 r1
    let (pm, r3) ← parseFieldP r2
    if r3.isEmpty then some (hour24 i pm, 0) else none

/-- Decimal digits of a natural number. -/
def natChars (n : Nat) : List Char := Nat.toDigits 10 n

/-- Two-digit zero-padded field, as in `strftime('%H:%M')`. -/
def pad2 (n : Nat) : List Char :=
  if n < 10 then '0' :: natChars n else natChars n

/-- `time_obj.strftime('%H:%M')` (line 449). -/
def formatHM (h m : Nat) : List Char := pad2 h ++ [':'] ++ pad2 m

/-- Python `f"{v}"` of a `findall` result: a string is itself; a tuple of
strings prints as `('a', 'b')` (all tuples in scope have ≥ 2 elements). -/
def pvStr : PyVal → List Char
  | .str s => s
  | .tup ss =>
    '(' :: List.intercalate ", ".data (ss.map fun e => apos :: (e ++ [apos])) ++ [')']

/-- `ContextAwareProcessor._combine_date_time` (lines 431-453).
Returns `none` (Python `None`) when both sequences are empty; otherwise
takes `dates[0]` (or today, `fmt 0`) and `times[0]` (or `"09:00"`),
lower-cases an am/pm time or else appends `":00"`, then re-formats an
am/pm time via `strptime`, falling back to `"<date> 09:00"` on a parse
failure. -/
def combineDateTime (fmt : Nat → List Char) (dates : List PyVal)
    (times : List (List Char)) : Option (List Char) :=
  if dates.isEmpty && times.isEmpty then none
  else
    let dateStr : PyVal := dates.headD (.str (fmt 0))
    let timeStr : List Char := times.headD "09:00".data
    let timeStr :=
      if subStr "am".data (lowerStr timeStr) || subStr "pm".data (lowerStr timeStr) then
        lowerStr timeStr
      else timeStr ++ ":00".data
    if subStr "am".data timeStr || subStr "pm".data timeStr then
      match strptime12 (timeStr.contains ':') timeStr with
      | some (h, m) => some (pvStr dateStr ++ [' '] ++ formatHM h m)
      | none => some (pvStr dateStr ++ " 09:00".data)
    else some (pvStr dateStr ++ [' '] ++ timeStr)

/-! ## Action generators (`enhanced_nlu.py` lines 227-346) -/

/-- `_generate_task_actions` (lines 242-271). -/
def generateTaskActions (text : List Char) (entities : Entities) (_ctx : Ctx) :
    List NAction :=
  let tl := lowerStr text
  let has := fun (ws : List String) => ws.any fun w => subStr w.data tl
  if has ["add", "create", "new", "make"] then
    [⟨"create_task".data,
      [("task".data, .vStr (extractTaskDescription text)),
       ("priority".data, .vInt entities.priority),
       ("deadline".data, match entities.dates with
         | [] => .vNone
         | d :: _ => .vPy d),
       ("category".data, .vStr (inferCategory text))]⟩]
  else if has ["complete", "finish", "done", "mark"] then
    [⟨"complete_task".data, [("task_query".data, .vStr text)]⟩]
  else if has ["show", "list", "view"] then
    [⟨"list_tasks".data, [("filter".data, .vStr (extractTaskFilter text))]⟩]
  else []

/-- `_generate_budget_actions` (lines 273-305). -/
def generateBudgetActions (fmt : Nat → List Char) (text : List Char)
    (entities : Entities) (_ctx : Ctx) : List NAction :=
  let tl := lowerStr text
  let has := fun (ws : List String) => ws.any fun w => subStr w.data tl
  if !entities.amounts.isEmpty && has ["spent", "spend", "cost", "paid", "pay"] then
    [⟨"add_expense".data,
      [("amount".data, .vRat (entities.amounts.headD 0)),
       ("description".data, .vStr (extractExpenseDescription text)),
       ("category".data, .vStr (inferExpenseCategory text)),
       ("date".data, match entities.dates with
         | [] => .vStr (fmt 0)
         | d :: _ => .vPy d)]⟩]
  else if !entities.amounts.isEmpty && has ["earned", "income", "salary", "received"] then
    [⟨"add_income".data,
      [("amount".data, .vRat (entities.amounts.headD 0)),
       ("description".data, .vStr (extractIncomeDescription text)),
       ("date".data, match entities.dates with
         | [] => .vStr (fmt 0)
         | d :: _ => .vPy d)]⟩]
  else if has ["show", "view", "check", "summary"] then
    [⟨"show_budget_summary".data, []⟩]
  else []

/-- `_generate_schedule_actions` (lines 307-333). -/
def generateScheduleActions (fmt : Nat → List Char) (text : List Char)
    (entities : Entities) (_ctx : Ctx) : List NAction :=
  let tl := lowerStr text
  let has := fun (ws : List String) => ws.any fun w => subStr w.data tl
  if has ["schedule", "book", "plan", "appointment", "meeting"] then
    [⟨"create_event".data,
      [("title".data, .vStr (extractEventTitle text)),
       ("start_time".data, match combineDateTime fmt entities.dates entities.times with
         | some s => .vStr s
         | none => .vNone),
       ("description".data, .vStr text),
       ("location".data, .vStr (extractLocation text))]⟩]
  else if has ["remind", "reminder"] then
    [⟨"set_reminder".data,
      [("title".data, .vStr (extractReminderTitle text)),
       ("time".data, match combineDateTime fmt entities.dates entities.times with
         | some s => .vStr s
         | none => .vNone),
       ("description".data, .vStr text)]⟩]
  else []

/-- `_generate_query_actions` (lines 335-346). -/
def generateQueryActions (text : List Char) (_entities : Entities) (_ctx : Ctx) :
    List NAction :=
  let tl := lowerStr text
  let has := fun (ws : List String) => ws.any fun w => subStr w.data tl
  if has ["status", "summary", "overview", "report"] then
    [⟨"generate_summary".data, [("query".data, .vStr text)]⟩]
  else []

/-- `_generate_actions_for_intent` (lines 227-240): dispatch on the intent
tag; `conversation` has no generator and yields no actions. -/
def generateActionsForIntent (fmt : Nat → List Char) (intent : Intent)
    (text : List Char) (entities : Entities) (ctx : Ctx) : List NAction :=
  match intent with
  | .task_management => generateTaskActions text entities ctx
  | .budget_management => generateBudgetActions fmt text entities ctx
  | .schedule_management => generateScheduleActions fmt text entities ctx
  | .information_query => generateQueryActions text entities ctx
  | .conversation => []

/-! ## Confidence and orchestration (lines 179-225) -/

/-- `_calculate_confidence` (lines 213-225): 0.6 when the intent list is
empty or contains `conversation` at all; otherwise 0.9 for two or more
non-conversation intents, 0.8 for exactly one, 0.6 otherwise.  Python
floats are modeled as exact rationals. -/
def calculateConfidence (intents : List Intent) (_text : List Char) : ℚ :=
  if intents.isEmpty || intents.contains .conversation then 3/5
  else
    let specific := intents.filter fun i => i != .conversation
    if 2 ≤ specific.length then 9/10
    else if specific.length == 1 then 4/5
    else 3/5

/-- `ContextAwareProcessor.process_complex_input` (lines 179-211):
classify, extract, build the result dict, then append per-intent actions.
`none` models the (undocumented) `ValueError` escaping from
`extract_amounts`; all other steps are total. -/
def processComplexInput (fmt : Nat → List Char) (userInput : List Char)
    (context : Option Ctx) : Option NLUResult :=
  let ctx := context.getD []
  let intents := classifyIntent userInput
  let dates := extractDates fmt userInput
  let times := extractTimes userInput
  match extractAmounts userInput with
  | none => none
  | some amounts =>
    let priority := extractPriority userInput
    let entities : Entities := ⟨dates, times, amounts, priority⟩
    let actions := intents.foldl
      (fun acc intent => acc ++ generateActionsForIntent fmt intent userInput entities ctx) []
    some ⟨intents, entities, actions, calculateConfidence intents userInput⟩

/-! ## Shared collections (`shared.py`) and the suggestion generator
(`enhanced_nlu.py` lines 462-520)

The module-level mutable collections and the wall clock are an explicit
environment `SharedEnv`.  Python floats are exact rationals. -/

/-- A naive `datetime` (no timezone). -/
structure DateTimeM : Type where
  year : Nat
  month : Nat
  day : Nat
  hour : Nat
  minute : Nat
  second : Nat
deriving DecidableEq

/-- A task dict, restricted to the keys the suggestion generator reads
(`task.get('done', False)`, `task.get('deadline')`; a missing deadline is
`none`). -/
structure TaskR : Type where
  done : Bool
  deadline : Option (List Char)
deriving DecidableEq

/-- A budget entry dict, restricted to the keys `get_budget_summary`
reads. -/
structure BudgetR : Type where
  amount : ℚ
  btype : List Char
  bdate : List Char
  bcat : List Char
deriving DecidableEq

/-- A schedule event dict, restricted to the key `get_upcoming_events`
reads. -/
structure EventR : Type where
  start_time : List Char
deriving DecidableEq

/-- The externally owned state read by the suggestion generator: the
`shared` module's collections plus `datetime.now()`. -/
structure SharedEnv : Type where
  tasks : List TaskR
  budget_entries : List BudgetR
  schedule_events : List EventR
  now : DateTimeM
deriving DecidableEq

/-- Gregorian leap year. -/
def isLeap (y : Nat) : Bool := (y % 4 == 0 && y % 100 != 0) || y % 400 == 0

/-- Days in a month. -/
def daysInMonth (y m : Nat) : Nat :=
  if m == 2 then (if isLeap y then 29 else 28)
  else if m == 4 || m == 6 || m == 9 || m == 11 then 30
  else 31

/-- Day count of a civil date from the epoch 1970-01-01 (standard civil
calendar algorithm); monotone in the date, so `datetime` comparisons and
`timedelta` additions can be carried out on absolute seconds. -/
def daysFromCivil (y m d : Int) : Int :=
  let y2 : Int := if m ≤ 2 then y - 1 else y
  let era : Int := (if 0 ≤ y2 then y2 else y2 - 399) / 400
  let yoe : Int := y2 - era * 400
  let mp : Int := (m + 9) % 12
  let doy : Int := (153 * mp + 2) / 5 + d - 1
  let doe : Int := yoe * 365 + yoe / 4 - yoe / 100 + doy
  era * 146097 + doe - 719468

/-- A naive `datetime` as absolute seconds from the epoch. -/
def absSeconds (t : DateTimeM) : Int :=
  daysFromCivil t.year t.month t.day * 86400 +
    (t.hour * 3600 + t.minute * 60 + t.second : Nat)

/-- Read a run of decimal digits of exactly length `k`. -/
def takeDigits (k : Nat) (s : List Char) : Option (Nat × List Char) :=
  let pre := s.take k
  if pre.length == k && pre.all isDigitChar then
    some (pre.foldl (fun a c => a * 10 + digitVal c) 0, s.drop k)
  else none

/-- `datetime.strptime(s, '%Y-%m-%d')` (used on task deadlines, line 480):
`%Y` is four digits, `%m` and `%d` admit one or two digits in range, the
whole string must be consumed, and the day must exist in the month
(year ≥ 1).  `none` is a `ValueError`. -/
def parseDateYMD (s : List Char) : Option (Nat × Nat × Nat) := do
  let (y, r1) ← takeDigits 4 s
  match r1 with
  | '-' :: r2 =>
    let (m, r3) ← (takeDigits 2 r2).orElse fun _ => takeDigits 1 r2
    if 1 ≤ m && m ≤ 12 then
      match r3 with
      | '-' :: r4 =>
        let (d, r5) ← (takeDigits 2 r4).orElse fun _ => takeDigits 1 r4
        if r5.isEmpty && 1 ≤ d && d ≤ daysInMonth y m && 1 ≤ y then some (y, m, d)
        else none
      | _ => none
    else none
  | _ => none

/-- Python `s.replace('Z', '+00:00')` (line 362 of `shared.py`). -/
def replaceZ : List Char → List Char
  | [] => []
  | 'Z' :: t => '+' :: '0' :: '0' :: ':' :: '0' :: '0' :: replaceZ t
  | c :: t => c :: replaceZ t

/-- `datetime.fromisoformat` on `YYYY-MM-DD[*HH:MM[:SS[.ffffff]][±HH:MM]]`
(the strict pre-3.11 grammar; the separator is any single character).
Returns the datetime and whether a timezone offset was present; `none` is
a `ValueError`. -/
def parseIso (s : List Char) : Option (DateTimeM × Bool) := do
  let (y, r1) ← takeDigits 4 s
  match r1 with
  | '-' :: r2 =>
    let (mo, r3) ← takeDigits 2 r2
    match r3 with
    | '-' :: r4 =>
      let (d, r5) ← takeDigits 2 r4
      if !(1 ≤ mo && mo ≤ 12 && 1 ≤ d && d ≤ daysInMonth y mo && 1 ≤ y) then none
      else
        match r5 with
        | [] => some (⟨y, mo, d, 0, 0, 0⟩, false)
        | _ :: r6 => do
          let (h, r7) ← takeDigits 2 r6
          match r7 with
          | ':' :: r8 =>
            let (mi, r9) ← takeDigits 2 r8
            let (sec, r10) ←
              match r9 with
              | ':' :: r9b =>
                (do
                  let (sec, r9c) ← takeDigits 2 r9b
                  match r9c with
                  | '.' :: r9d =>
                    ((takeDigits 6 r9d).orElse fun _ => takeDigits 3 r9d).map
                      fun (_, r9e) => (sec, r9e)
                  | _ => some (sec, r9c))
              | _ => some (0, r9)
            if !(h ≤ 23 && mi ≤ 59 && sec ≤ 59) then none
            else
              match r10 with
              | [] => some (⟨y, mo, d, h, mi, sec⟩, false)
              | sign :: r11 =>
                if sign == '+' || sign == '-' then do
                  let (oh, r12) ← takeDigits 2 r11
                  match r12 with
                  | ':' :: r13 => do
                    let (om, r14) ← takeDigits 2 r13
                    if r14.isEmpty && oh ≤ 23 && om ≤ 59 then
                      some (⟨y, mo, d, h, mi, sec⟩, true)
                    else none
                  | _ => none
                else none
          | _ => none
    | _ => none
  | _ => none

/-- `'%Y-%m'` of the current time (`get_budget_summary`, line 331). -/
def formatYM (t : DateTimeM) : List Char :=
  (List.replicate (4 - (natChars t.year).length) '0' ++ natChars t.year) ++
    ['-'] ++ pad2 t.month

/-- The summary dict of `get_budget_summary` (lines 329-352 of
`shared.py`). -/
structure BudgetSummary : Type where
  total_income : ℚ
  total_expenses : ℚ
  balance : ℚ
  expense_categories : List (List Char × ℚ)
deriving DecidableEq

/-- Ordered-dict update `d[k] = d.get(k, 0) + q`. -/
def dictAdd (d : List (List Char × ℚ)) (k : List Char) (q : ℚ) :
    List (List Char × ℚ) :=
  if d.any (fun p => p.1 == k) then
    d.map fun p => if p.1 == k then (p.1, p.2 + q) else p
  else d ++ [(k, q)]

/-- `shared.get_budget_summary` (lines 329-352): totals over this month's
entries (`date.startswith('%Y-%m' of now)`) and the per-category expense
breakdown. -/
def getBudgetSummary (env : SharedEnv) : BudgetSummary :=
  let cm := formatYM env.now
  let inMonth := fun (e : BudgetR) => hasPre cm e.bdate
  let ti := (env.budget_entries.filter fun e =>
    e.btype == "income".data && inMonth e).foldl (fun a e => a + e.amount) 0
  let te := (env.budget_entries.filter fun e =>
    e.btype == "expense".data && inMonth e).foldl (fun a e => a + e.amount) 0
  let cats := (env.budget_entries.filter fun e =>
    e.btype == "expense".data && inMonth e).foldl
      (fun d e => dictAdd d e.bcat e.amount) []
  ⟨ti, te, ti - te, cats⟩

/-- Stable insertion into a sorted list (`sorted` is stable). -/
def insOrd (le : EventR → EventR → Bool) (x : EventR) : List EventR → List EventR
  | [] => [x]
  | y :: ys => if le x y then x :: y :: ys else y :: insOrd le x ys

/-- Stable insertion sort, the observable behavior of Python `sorted`. -/
def sortStable (le : EventR → EventR → Bool) : List EventR → List EventR
  | [] => []
  | x :: xs => insOrd le x (sortStable le xs)

/-- `shared.get_upcoming_events` (lines 354-368): keep the events whose
`start_time` parses (after the `Z` replacement) and lies in
`[now, now + days]`; an unparseable start time is skipped, and so is a
timezone-aware one (comparing it with the naive `now` raises `TypeError`,
swallowed by the bare `except`).  Result sorted by the `start_time`
string. -/
def getUpcomingEvents (env : SharedEnv) (days : Nat) : List EventR :=
  let nowAbs := absSeconds env.now
  let futureAbs := nowAbs + (days : Int) * 86400
  let upcoming := env.schedule_events.filter fun e =>
    match parseIso (replaceZ e.start_time) with
    | some (dt, aware) =>
      !aware && decide (nowAbs ≤ absSeconds dt) && decide (absSeconds dt ≤ futureAbs)
    | none => false
  sortStable (fun a b => lexLe a.start_time b.start_time) upcoming

/-- Round to the nearest integer, ties to even (the rounding of Python's
`'%.2f'` formatting, on the rational model of floats). -/
def roundHalfEven (q : ℚ) : Int :=
  let f := q.floor
  let r := q - f
  if r < 1/2 then f
  else if 1/2 < r then f + 1
  else if f % 2 == 0 then f else f + 1

/-- Python `f"{q:.2f}"` on the rational model. -/
def formatFixed2 (q : ℚ) : List Char :=
  let n := roundHalfEven (q * 100)
  let sgn : List Char := if n < 0 then ['-'] else []
  let m := n.natAbs
  sgn ++ natChars (m / 100) ++ ['.'] ++ pad2 (m % 100)

/-- Message of the overdue-tasks rule (line 487). -/
def msgOverdue (n : Nat) : List Char :=
  "You have ".data ++ natChars n ++
    " overdue tasks. Would you like to review them?".data

/-- Message of the many-pending-tasks rule (line 490). -/
def msgManyPending : List Char :=
  "You have many pending tasks. Consider prioritizing or breaking them down.".data

/-- Message of the negative-balance rule (line 498). -/
def msgOverBudget (balance : ℚ) : List Char :=
  "Your budget is $".data ++ formatFixed2 |balance| ++
    " over. Consider reviewing expenses.".data

/-- Message of the expense-ratio rule (line 501): `You're spending close
to your income limit. Track expenses carefully.` -/
def msgSpendingClose : List Char :=
  "You".data ++ [apos] ++
    "re spending close to your income limit. Track expenses carefully.".data

/-- Message of the upcoming-events rule (line 506). -/
def msgUpcoming (n : Nat) : List Char :=
  "You have ".data ++ natChars n ++
    " events coming up today. Need any preparation reminders?".data

/-- Morning greeting (line 511): `Good morning! Ready to tackle today's
priorities?` -/
def msgMorning : List Char :=
  "Good morning! Ready to tackle today".data ++ [apos] ++ "s priorities?".data

/-- Afternoon greeting (line 513). -/
def msgAfternoon : List Char :=
  "Afternoon check-in: How are your tasks progressing?".data

/-- Evening greeting (line 515). -/
def msgEvening : List Char :=
  "End of day: Want to review what you accomplished?".data

/-- The suggestion list built by `get_smart_suggestions` (lines 464-518)
before the final `[:3]` truncation, in the source's fixed rule order:
overdue tasks, many pending tasks, the two budget rules (only evaluated
when `budget_entries` is non-empty), upcoming events in the next day, and
the hour-of-day greeting (an `if`/`elif` chain, so at most one).  The
float literal `0.8` is the rational 4/5 under the float-as-rational
model. -/
def smartSuggestionList (env : SharedEnv) : List (List Char) :=
  let pending := env.tasks.filter fun t => !t.done
  let overdue := pending.filter fun t =>
    match t.deadline with
    | none => false
    | some dl =>
      match parseDateYMD dl with
      | some (y, m, d) => decide (absSeconds ⟨y, m, d, 0, 0, 0⟩ < absSeconds env.now)
      | none => false
  let s1 := if !overdue.isEmpty then [msgOverdue overdue.length] else []
  let s2 := if 10 < pending.length then [msgManyPending] else []
  let sBudget :=
    if env.budget_entries.isEmpty then []
    else
      let summary := getBudgetSummary env
      (if summary.balance < 0 then [msgOverBudget summary.balance] else []) ++
      (if summary.total_income * (4/5) < summary.total_expenses then
        [msgSpendingClose] else [])
  let upcoming := getUpcomingEvents env 1
  let s5 := if !upcoming.isEmpty then [msgUpcoming upcoming.length] else []
  let h := env.now.hour
  let s6 :=
    if 9 ≤ h && h ≤ 11 then [msgMorning]
    else if 13 ≤ h && h ≤ 14 then [msgAfternoon]
    else if 17 ≤ h && h ≤ 19 then [msgEvening]
    else []
  s1 ++ s2 ++ sBudget ++ s5 ++ s6

/-- `get_smart_suggestions` (lines 462-520): build the rule-ordered
suggestion list and return its first three elements (`suggestions[:3]`).
The `context` argument is never read. -/
def getSmartSuggestions (env : SharedEnv) (_context : Option Ctx) :
    List (List Char) :=
  (smartSuggestionList env).take 3

/-! ## Lemmas about the classifier loop -/

/-- Does some pattern of category `i` match the lower-cased text?  (The
matching condition of the classifier loop, line 63.) -/
def intentMatches (i : Intent) (text : List Char) : Bool :=
  (patsOf i).any fun r => reSearch r (lowerStr text)

theorem detect_eq_filter (tl : List Char) :
    ∀ (l : List (Intent × List Regex)) (acc : List Intent),
      (∀ p ∈ l, p.1 ∉ acc) → (l.map Prod.fst).Nodup →
      detect tl l acc =
        acc ++ (l.filter fun p => p.2.any fun r => reSearch r tl).map Prod.fst := by
  intro l
  induction l with
  | nil => intro acc _ _; simp [detect]
  | cons hd rest ih =>
    intro acc hacc hnd
    obtain ⟨i, ps⟩ := hd
    have hi_not : i ∉ acc := hacc (i, ps) (List.mem_cons_self _ _)
    have hrest_nd : (rest.map Prod.fst).Nodup := (List.nodup_cons.mp hnd).2
    have hi_nin : i ∉ rest.map Prod.fst := (List.nodup_cons.mp hnd).1
    by_cases hm : (ps.any fun r => reSearch r tl) = true
    · have hstep : detect tl ((i, ps) :: rest) acc = detect tl rest (acc ++ [i]) := by
        simp [detect, hm, hi_not]
      rw [hstep, ih (acc ++ [i]) ?hne hrest_nd]
      · simp [List.filter_cons, hm]
      · intro p hp
        simp only [List.mem_append, List.mem_singleton]
        rintro (hin | hEq)
        · exact hacc p (List.mem_cons_of_mem _ hp) hin
        · exact hi_nin (hEq ▸ List.mem_map_of_mem Prod.fst hp)
    · have hm' : (ps.any fun r => reSearch r tl) = false := by
        simpa using hm
      have hstep : detect tl ((i, ps) :: rest) acc = detect tl rest acc := by
        simp [detect, hm']
      rw [hstep, ih acc (fun p hp => hacc p (List.mem_cons_of_mem _ hp)) hrest_nd]
      simp [List.filter_cons, hm']

theorem mem_intentOrder (i : Intent) : i ∈ intentOrder := by
  cases i <;> decide

theorem INTENT_PATTERNS_map_fst : INTENT_PATTERNS.map Prod.fst = intentOrder := rfl

theorem detected_eq (text : List Char) :
    detect (lowerStr text) INTENT_PATTERNS [] =
      (INTENT_PATTERNS.filter fun p =>
        p.2.any fun r => reSearch r (lowerStr text)).map Prod.fst := by
  have h := detect_eq_filter (lowerStr text) INTENT_PATTERNS []
    (by intro p _ hin; exact (List.not_mem_nil _ hin))
    (by rw [INTENT_PATTERNS_map_fst]; decide)
  simpa using h

theorem mem_detected_iff (text : List Char) (i : Intent) :
    (i ∈ (INTENT_PATTERNS.filter fun p =>
        p.2.any fun r => reSearch r (lowerStr text)).map Prod.fst)
      ↔ intentMatches i text = true := by
  constructor
  · intro hi
    obtain ⟨pr, hpr, hfst⟩ := List.mem_map.mp hi
    obtain ⟨hmem, hP⟩ := List.mem_filter.mp hpr
    obtain ⟨j, _, hje⟩ := List.mem_map.mp hmem
    subst hje
    cases hfst
    exact hP
  · intro h
    refine List.mem_map.mpr ⟨(i, patsOf i), List.mem_filter.mpr ⟨?_, h⟩, rfl⟩
    exact List.mem_map.mpr ⟨i, mem_intentOrder i, rfl⟩

theorem intentOrder_nodup : intentOrder.Nodup := by decide

theorem detected_sublist (text : List Char) :
    (detect (lowerStr text) INTENT_PATTERNS []).Sublist intentOrder := by
  rw [detected_eq]
  have h1 : ((INTENT_PATTERNS.filter fun p =>
      p.2.any fun r => reSearch r (lowerStr text)).map Prod.fst).Sublist
      (INTENT_PATTERNS.map Prod.fst) :=
    (List.filter_sublist _).map Prod.fst
  rwa [INTENT_PATTERNS_map_fst] at h1

/-! ## The claims -/

/-- Claim C1: the claim says `process` and the four extraction operations
never raise; in fact `extract_amounts` raises `ValueError` (modeled as
`none`) on the spec's own example text `"I spent $45.50 on lunch"`, and the
exception escapes `process_complex_input`, for every clock and every
context. -/
theorem c1_process_raises (fmt : Nat → List Char) (context : Option Ctx) :
    processComplexInput fmt "I spent $45.50 on lunch".data context = none :=
  rfl

/-- Claim C3: on `"I spent $45.50 on lunch"` the code raises `ValueError`
(`none`) instead of returning `[45.50]`; on `"no money mentioned"` it does
return the empty list; and even on the decimal-free `"$45"` it returns the
empty list rather than `[45.0]`, because `re.findall` returns the contents
of the pattern's group — `''` — instead of the matched text. -/
theorem c3_amounts_behavior :
    extractAmounts "I spent $45.50 on lunch".data = none ∧
    extractAmounts "no money mentioned".data = some [] ∧
    extractAmounts "$45".data = some [] :=
  ⟨rfl, rfl, rfl⟩

/-- Claim C4: `"today"` and `"tomorrow"` are normalized as the claim says,
but a matched `"next week"` / `"next month"` phrase is returned as the raw
pair `('next', 'week')` — the two-group pattern makes `re.findall` return
tuples, on which the `'next week' in date_str` membership test is false —
so it is neither the current date plus 7 (resp. 30) days nor a string. -/
theorem c4_dates_behavior (fmt : Nat → List Char) :
    extractDates fmt "today and tomorrow".data = [.str (fmt 0), .str (fmt 1)] ∧
    extractDates fmt "next week".data = [PyVal.tup ["next".data, "week".data]] ∧
    extractDates fmt "next month".data = [PyVal.tup ["next".data, "month".data]] :=
  ⟨rfl, rfl, rfl⟩

/-- Claim C5: `combine_date_time` does return `None` on two empty
sequences, but on `(["2024-05-01"], [])` it returns
`"2024-05-01 09:00:00"`, not `"2024-05-01 09:00"`: the code appends
`":00"` to the already-minuted default `"09:00"`. -/
theorem c5_combine_behavior (fmt : Nat → List Char) :
    combineDateTime fmt [] [] = none ∧
    combineDateTime fmt [PyVal.str "2024-05-01".data] [] =
      some "2024-05-01 09:00:00".data :=
  ⟨rfl, rfl⟩

/-- Claim C6 counterexample: `classify("hello there, how are you")` is not
the singleton `[conversation]`. -/
theorem c6_classify_cex :
    (classifyIntent "hello there, how are you".data == [Intent.conversation])
      = false := by
  decide

/-- Claim C6 as amended: `classify("hello there, how are you")` returns
`[information_query, conversation]` — the word "how" also matches the
first information-query pattern `\b(what|when|where|how|why|who)`. -/
theorem c6_classify_amended :
    classifyIntent "hello there, how are you".data =
      [Intent.information_query, Intent.conversation] := by
  decide

/-- Claim C2 counterexample: on `"hello deadline"` exactly one
non-conversation intent (task_management) is detected, yet the confidence
is 0.6, not the 0.8 the claim requires "regardless of whether the
conversation tag is additionally present". -/
theorem c2_confidence_cex :
    ((classifyIntent "hello deadline".data).filter
        (fun i => i != Intent.conversation)).length = 1 ∧
    (processComplexInput (fun _ => []) "hello deadline".data none).map
        NLUResult.confidence = some (3/5) ∧
    (3/5 : ℚ) < 4/5 :=
  ⟨by decide, rfl, by norm_num⟩

/-- Claim C2 as amended: the confidence of every result of `process` is
0.6 whenever the intent list is empty or contains the conversation tag at
all (even alongside non-conversation tags); only when conversation is
absent is it 0.9 for two or more non-conversation tags and 0.8 for exactly
one. -/
theorem c2_confidence_amended (fmt : Nat → List Char) (text : List Char)
    (context : Option Ctx) (r : NLUResult)
    (h : processComplexInput fmt text context = some r) :
    r.confidence =
      if r.intents.isEmpty || r.intents.contains Intent.conversation then 3/5
      else if 2 ≤ (r.intents.filter fun i => i != Intent.conversation).length then 9/10
      else if (r.intents.filter fun i => i != Intent.conversation).length == 1 then 4/5
      else 3/5 := by
  simp only [processComplexInput] at h
  cases hA : extractAmounts text with
  | none => rw [hA] at h; cases h
  | some amounts =>
    rw [hA] at h
    injection h with h2
    subst h2
    rfl

/-- The result of `process` on `"hello deadline"` (for the witness). -/
def c2res : NLUResult :=
  ⟨[.task_management, .conversation], ⟨[], [], [], 2⟩, [], 3/5⟩

/-- Witness for C2's amended theorem at the concrete input
`"hello deadline"`. -/
theorem c2_confidence_amended_witness :
    c2res.confidence =
      if c2res.intents.isEmpty || c2res.intents.contains Intent.conversation then 3/5
      else if 2 ≤ (c2res.intents.filter fun i => i != Intent.conversation).length then 9/10
      else if (c2res.intents.filter fun i => i != Intent.conversation).length == 1 then 4/5
      else 3/5 :=
  c2_confidence_amended (fun _ => []) "hello deadline".data none c2res rfl

/-- Claim C7: for every text the classifier returns a non-empty,
duplicate-free list of tags that is a subsequence of the declaration order
`[task_management, budget_management, schedule_management,
information_query, conversation]`; a tag is present iff one of its
patterns matches the lower-cased text, except that `[conversation]` is
returned when no category at all matches. -/
theorem c7_classifier_invariants (text : List Char) :
    (classifyIntent text).isEmpty = false ∧
    (classifyIntent text).Nodup ∧
    (classifyIntent text).Sublist intentOrder ∧
    ∀ i : Intent, i ∈ classifyIntent text ↔
      (intentMatches i text = true ∨
        (i = .conversation ∧ ∀ j : Intent, intentMatches j text = false)) := by
  have hcl : classifyIntent text =
      if (detect (lowerStr text) INTENT_PATTERNS []).isEmpty then
        [Intent.conversation]
      else detect (lowerStr text) INTENT_PATTERNS [] := rfl
  cases hE : (detect (lowerStr text) INTENT_PATTERNS []).isEmpty with
  | true =>
    have hnil : detect (lowerStr text) INTENT_PATTERNS [] = [] :=
      List.isEmpty_iff.mp hE
    have hall : ∀ j : Intent, intentMatches j text = false := by
      intro j
      cases hb : intentMatches j text with
      | false => rfl
      | true =>
        exfalso
        have hmem := (mem_detected_iff text j).mpr hb
        rw [← detected_eq, hnil] at hmem
        exact List.not_mem_nil _ hmem
    rw [hcl, hE, if_pos rfl]
    refine ⟨rfl, by decide, by decide, ?_⟩
    intro i
    constructor
    · intro hi
      have hi' : i = Intent.conversation := by simpa using hi
      exact Or.inr ⟨hi', hall⟩
    · rintro (hm | ⟨hi', _⟩)
      · rw [hall i] at hm; cases hm
      · rw [hi']; exact List.mem_singleton_self _
  | false =>
    rw [hcl, hE, if_neg (by simp)]
    refine ⟨hE, ?_, detected_sublist text, ?_⟩
    · rw [detected_eq]
      exact ((List.filter_sublist _).map Prod.fst).nodup
        (INTENT_PATTERNS_map_fst ▸ intentOrder_nodup)
    · intro i
      rw [detected_eq, mem_detected_iff]
      constructor
      · exact Or.inl
      · rintro (hm | ⟨hi', hall⟩)
        · exact hm
        · exfalso
          have hnil : (INTENT_PATTERNS.filter fun p =>
              p.2.any fun r => reSearch r (lowerStr text)) = [] := by
            rw [List.filter_eq_nil_iff]
            intro p hmem
            obtain ⟨j2, -, hje⟩ := List.mem_map.mp hmem
            subst hje
            simpa [intentMatches] using hall j2
          have : detect (lowerStr text) INTENT_PATTERNS [] = [] := by
            rw [detected_eq, hnil]; rfl
          rw [this] at hE
          cases hE

/-- Witness for C7 at the concrete input `"add task now"`. -/
theorem c7_classifier_invariants_witness :
    Intent.task_management ∈ classifyIntent "add task now".data :=
  ((c7_classifier_invariants "add task now".data).2.2.2 Intent.task_management).mpr
    (Or.inl (by decide))

/-- Claim C8: priority precedence.  Any text whose lower-cased form
matches the urgent pattern gets priority 4 no matter what else it
contains; any text matching none of the three priority patterns gets the
default 2; and the three concrete examples of the claim evaluate as
stated. -/
theorem c8_priority_precedence (text : List Char)
    (h : reSearch urgentPat (lowerStr text) = true) :
    extractPriority text = 4 ∧
    (∀ t2 : List Char, reSearch urgentPat (lowerStr t2) = false →
      reSearch importantPat (lowerStr t2) = false →
      reSearch lowPat (lowerStr t2) = false → extractPriority t2 = 2) ∧
    extractPriority "this is urgent, do it now".data = 4 ∧
    extractPriority "".data = 2 ∧
    extractPriority "low priority, urgent actually".data = 4 := by
  refine ⟨by simp [extractPriority, h], ?_, by decide, rfl, by decide⟩
  intro t2 h0 h1 h2
  simp [extractPriority, h0, h1, h2]

/-- Witness for C8 at the claim's precedence example, discharging the
urgent-match hypothesis there. -/
theorem c8_priority_precedence_witness :
    extractPriority "low priority, urgent actually".data = 4 ∧
    extractPriority "see you at noon".data = 2 :=
  ⟨(c8_priority_precedence "low priority, urgent actually".data (by decide)).1,
   (c8_priority_precedence "low priority, urgent actually".data (by decide)).2.1
     "see you at noon".data (by decide) (by decide) (by decide)⟩

/-- Claim C9: for every state of the shared collections and every context,
the suggestion generator returns at most 3 strings, namely the first 3 of
the rule-ordered suggestion list. -/
theorem c9_suggestions_capped (env : SharedEnv) (context : Option Ctx) :
    (getSmartSuggestions env context).length ≤ 3 ∧
    getSmartSuggestions env context = (smartSuggestionList env).take 3 :=
  ⟨by simp only [getSmartSuggestions, List.length_take]; exact min_le_left _ _,
   rfl⟩

/-- A concrete shared state (for the C9 witness). -/
def envW : SharedEnv := ⟨[], [], [], ⟨2024, 5, 1, 10, 0, 0⟩⟩

/-- Witness for C9 at a concrete environment. -/
theorem c9_suggestions_capped_witness :
    (getSmartSuggestions envW none).length ≤ 3 :=
  (c9_suggestions_capped envW none).1

/-- Claim C10: on the empty input, `process` returns intents exactly
`[conversation]`, empty dates/times/amounts, priority 2, no actions and
confidence 0.6 — for every clock and every context. -/
theorem c10_empty_input (fmt : Nat → List Char) (context : Option Ctx) :
    processComplexInput fmt "".data context =
      some ⟨[.conversation], ⟨[], [], [], 2⟩, [], 3/5⟩ :=
  rfl

end ATM
